import Mathlib

/-!
Shallow embedding of `src/property_rosetta/dictionary.py` (rockdreamer/property-rosetta).

Modelling conventions:
* YAML/Python data values are the inductive `Val`; a parsed YAML mapping
  (Python `dict`) is a `Rec`, an association list with the keys unique and in
  insertion order, as `yaml.safe_load` produces.
* Raised Python exceptions are the error side of `Except PyErr`; the two
  library exception classes `DictionaryLoadingError` and
  `DictionaryValidationError` (dictionary.py lines 24-48) keep only their
  message, and raw interpreter errors (`KeyError`, `AttributeError`,
  `TypeError`) are modelled by their own constructors.  `OSError` raised by
  `open` and `yaml.YAMLError` raised by `yaml.safe_load` are the constructors
  `osError` and `yamlError`; they carry no payload because the code only ever
  catches them by class.
* `weakref.proxy(parent)` back-references are modelled as snapshots of the
  parent's scalar fields at attachment time (`DictionaryBase`, `EntitySnap`,
  `EnumSnap`).  No claim under verification reads a parent's collections, or a
  field mutated after attachment, through a back-reference, so the snapshot is
  extensionally equivalent there.  Liveness of weak references (garbage
  collection) is outside this embedding.
* `DictionaryProperty.from_dict`'s first parameter accepts any Python object;
  the two objects actually passed in the source are an entity
  (`from_yaml_property_list`, line 350, and `from_yaml_entity_list`, line 428)
  and a dictionary (`DictionaryEntity.from_dict`, lines 406-407), hence the
  sum type `PropOwner`.
-/

/-- A Python/YAML value as produced by `yaml.safe_load`: null, bool, int,
string, list, or mapping (string keys, unique, insertion order).  Floats do
not occur in any input the verified code paths consume. -/
inductive Val where
  | vnull : Val
  | vbool (b : Bool) : Val
  | vint (n : Int) : Val
  | vstr (s : String) : Val
  | vlist (xs : List Val) : Val
  | vmap (fields : List (String × Val)) : Val

mutual
/-- Boolean equality on `Val` (Python `==` restricted to these value kinds). -/
def Val.beq : Val → Val → Bool
  | .vnull, .vnull => true
  | .vbool a, .vbool b => a == b
  | .vint a, .vint b => a == b
  | .vstr a, .vstr b => a == b
  | .vlist xs, .vlist ys => Val.beqList xs ys
  | .vmap xs, .vmap ys => Val.beqMap xs ys
  | _, _ => false

def Val.beqList : List Val → List Val → Bool
  | [], [] => true
  | x :: xs, y :: ys => Val.beq x y && Val.beqList xs ys
  | _, _ => false

def Val.beqMap : List (String × Val) → List (String × Val) → Bool
  | [], [] => true
  | (k, v) :: xs, (l, w) :: ys => k == l && Val.beq v w && Val.beqMap xs ys
  | _, _ => false
end

mutual
theorem Val.beq_iff : ∀ a b : Val, Val.beq a b = true ↔ a = b
  | .vnull, .vnull => by simp [Val.beq]
  | .vbool a, .vbool b => by simp [Val.beq]
  | .vint a, .vint b => by simp [Val.beq]
  | .vstr a, .vstr b => by simp [Val.beq]
  | .vlist xs, .vlist ys => by simp [Val.beq, Val.beqList_iff xs ys]
  | .vmap xs, .vmap ys => by simp [Val.beq, Val.beqMap_iff xs ys]
  | .vnull, .vbool _ | .vnull, .vint _ | .vnull, .vstr _ | .vnull, .vlist _ | .vnull, .vmap _
  | .vbool _, .vnull | .vbool _, .vint _ | .vbool _, .vstr _ | .vbool _, .vlist _ | .vbool _, .vmap _
  | .vint _, .vnull | .vint _, .vbool _ | .vint _, .vstr _ | .vint _, .vlist _ | .vint _, .vmap _
  | .vstr _, .vnull | .vstr _, .vbool _ | .vstr _, .vint _ | .vstr _, .vlist _ | .vstr _, .vmap _
  | .vlist _, .vnull | .vlist _, .vbool _ | .vlist _, .vint _ | .vlist _, .vstr _ | .vlist _, .vmap _
  | .vmap _, .vnull | .vmap _, .vbool _ | .vmap _, .vint _ | .vmap _, .vstr _ | .vmap _, .vlist _ =>
    by simp [Val.beq]

theorem Val.beqList_iff : ∀ xs ys : List Val, Val.beqList xs ys = true ↔ xs = ys
  | [], [] => by simp [Val.beqList]
  | x :: xs, y :: ys => by
    simp [Val.beqList, Val.beq_iff x y, Val.beqList_iff xs ys]
  | [], _ :: _ => by simp [Val.beqList]
  | _ :: _, [] => by simp [Val.beqList]

theorem Val.beqMap_iff : ∀ xs ys : List (String × Val), Val.beqMap xs ys = true ↔ xs = ys
  | [], [] => by simp [Val.beqMap]
  | (k, v) :: xs, (l, w) :: ys => by
    simp [Val.beqMap, Val.beq_iff v w, Val.beqMap_iff xs ys, and_assoc]
  | [], _ :: _ => by simp [Val.beqMap]
  | _ :: _, [] => by simp [Val.beqMap]
end

instance : DecidableEq Val :=
  fun a b => decidable_of_iff (Val.beq a b = true) (Val.beq_iff a b)

/-- A parsed YAML mapping / Python `dict` with string keys. -/
abbrev Rec := List (String × Val)

/-- `d.get(k)` / `d[k]` key lookup: first (unique) matching key. -/
def Rec.get? (d : Rec) (k : String) : Option Val :=
  (d.find? (fun kv => kv.1 == k)).map (fun kv => kv.2)

/-- Python `d.get(k, dflt)`. -/
def Rec.getD (d : Rec) (k : String) (dflt : Val) : Val :=
  (d.get? k).getD dflt

/-- Python truthiness (`bool(x)`) for the values of `Val`. -/
def Val.truthy : Val → Bool
  | .vnull => false
  | .vbool b => b
  | .vint n => n != 0
  | .vstr s => !s.isEmpty
  | .vlist xs => !xs.isEmpty
  | .vmap m => !m.isEmpty

mutual
/-- Python `str(x)`, as used by the f-strings building error messages.  Exact
for null, bools, ints and strings; the rendering of containers is an
approximation of Python's (no theorem below depends on it: every id that
reaches a message in a verified statement is a string). -/
def Val.pyStr : Val → String
  | .vnull => "None"
  | .vbool true => "True"
  | .vbool false => "False"
  | .vint n => toString n
  | .vstr s => s
  | .vlist xs => "[" ++ String.intercalate ", " (Val.pyStrList xs) ++ "]"
  | .vmap m => "\x7b" ++ String.intercalate ", " (Val.pyStrPairs m) ++ "\x7d"

def Val.pyStrList : List Val → List String
  | [] => []
  | x :: xs => Val.pyStr x :: Val.pyStrList xs

def Val.pyStrPairs : List (String × Val) → List String
  | [] => []
  | (k, v) :: xs => (k ++ ": " ++ Val.pyStr v) :: Val.pyStrPairs xs
end

/-- A nonempty all-digit character sequence as a natural number. -/
def pyNat? (cs : List Char) : Option Nat :=
  if cs.isEmpty || !cs.all Char.isDigit then none
  else some (cs.foldl (fun acc c => acc * 10 + (c.toNat - 48)) 0)

/-- Surrounding blanks stripped, as `int(...)` tolerates (spaces only; other
whitespace kinds do not occur in the inputs considered). -/
def stripSpaces (cs : List Char) : List Char :=
  ((cs.dropWhile (fun c => c == ' ')).reverse.dropWhile (fun c => c == ' ')).reverse

/-- Python `int(x)` on the values of `Val`: ints pass through, bools become
0/1, strings parse as an optionally signed decimal numeral (surrounding
blanks stripped); anything else fails (`TypeError`/`ValueError`, the
caller at dictionary.py line 119 catches every exception alike). -/
def Val.toInt? : Val → Option Int
  | .vint n => some n
  | .vbool b => some (if b then 1 else 0)
  | .vstr s =>
    match stripSpaces s.data with
    | '-' :: rest => (pyNat? rest).map (fun n => -(n : Int))
    | '+' :: rest => (pyNat? rest).map (fun n => (n : Int))
    | t => (pyNat? t).map (fun n => (n : Int))
  | _ => none

/-- A raised Python exception, as far as the verified code distinguishes
them. `loadingError` and `validationError` are the two library classes
(`DictionaryLoadingError`, `DictionaryValidationError`); `keyError`,
`attributeError` and `typeError` are the raw interpreter errors (the string
of `attributeError` is the missing attribute's name); `osError` and
`yamlError` stand for the file-read and parse failures caught by the batch
loaders. -/
inductive PyErr where
  | loadingError (msg : String) : PyErr
  | validationError (msg : String) : PyErr
  | keyError (key : Val) : PyErr
  | attributeError (attr : String) : PyErr
  | typeError (msg : String) : PyErr
  | osError : PyErr
  | yamlError : PyErr
deriving DecidableEq

/-- The low-level errors caught by every batch loader's
`except (OSError, yaml.YAMLError)` clause. -/
def PyErr.isLow : PyErr → Bool
  | .osError => true
  | .yamlError => true
  | _ => false

/-- `except (OSError, yaml.YAMLError): raise DictionaryLoadingError(msg, exc)`
wrapped around a computation: low-level errors are replaced by a
`loadingError` carrying `msg`; every other outcome passes through. -/
def catchLow (act : Except PyErr α) (msg : String) : Except PyErr α :=
  match act with
  | .error e => if e.isLow then .error (.loadingError msg) else .error e
  | .ok a => .ok a

/-- Elements of a Python list value; a non-list in a `for`-iteration raises
(modelled uniformly as `TypeError`; no verified path reaches this case). -/
def Val.asList : Val → Except PyErr (List Val)
  | .vlist xs => .ok xs
  | _ => .error (.typeError "object is not iterable")

/-- View a value as a mapping; calling `.get` on a non-dict raises
`AttributeError` (no verified path reaches this case). -/
def Val.asRec : Val → Except PyErr Rec
  | .vmap m => .ok m
  | _ => .error (.attributeError "get")

/-- `msg` contains `sub` as a substring. -/
def mentions (sub msg : String) : Prop :=
  ∃ a b, msg = a ++ sub ++ b

/-- The field `k` of record `d` is missing or is the empty string. -/
def Rec.missingOrEmptyStr (d : Rec) (k : String) : Prop :=
  d.get? k = none ∨ d.get? k = some (.vstr "")

/-! ## Object model

Snapshot types for weakref back-references (see the header comment), then the
five classes, with fields exactly as `__init__` plus the attributes the
factories assign (`name`/`deprecated` on `Dictionary`, `deprecated` on
`DictionaryProperty` are created by `from_dict`). -/

/-- A `Dictionary` as produced by `Dictionary.from_dict` (dictionary.py lines
456-477): `data_types` is still `None` and `entities` still `[]` from
`__init__` (lines 449-454); `from_yaml_dictionary` attaches both later. -/
structure DictionaryBase where
  id : Val
  description : Val
  version : Val
  name : Val
  deprecated : Val
deriving DecidableEq

/-- A `DictionaryEntity` as seen through a child's back-reference: the scalar
fields and the entity's own `dictionary` back-reference.  The `properties`
collection is omitted: no verified accessor reads it through a
back-reference. -/
structure EntitySnap where
  dictionary : Option DictionaryBase
  id : Val
  name : Val
  description : Val
  attributes : Val
  deprecated : Val
deriving DecidableEq

/-- The object stored in `DictionaryProperty.entity`: the source passes either
an entity (lines 350 and 428) or — in `DictionaryEntity.from_dict`, lines
406-407 — the owning dictionary. -/
inductive PropOwner where
  | entity (e : EntitySnap) : PropOwner
  | dictionary (d : DictionaryBase) : PropOwner
deriving DecidableEq

/-- A `DictionaryEnumeration` as seen through a value's back-reference. -/
structure EnumSnap where
  id : Val
  entity : Option EntitySnap
  name : Val
  description : Val
  deprecated : Val
deriving DecidableEq

/-- `DictionaryEnumerationValue` (dictionary.py lines 51-124). -/
structure DictionaryEnumerationValue where
  id : Val
  enumeration : Option EnumSnap
  integral_value : Int
  description : Val
  deprecated : Val
deriving DecidableEq

/-- `DictionaryProperty` (dictionary.py lines 279-341).  `entity_id` is set to
`None` by `__init__` (line 311) and never assigned afterwards. -/
structure DictionaryProperty where
  id : Val
  entity : Option PropOwner
  name : Val
  type_id : Val
  description : Val
  entity_id : Val
  attributes : Val
  deprecated : Val
deriving DecidableEq

/-- `DictionaryDataType` (dictionary.py lines 204-252). -/
structure DictionaryDataType where
  id : Val
  dictionary : Option DictionaryBase
  name : Val
  description : Val
  semantics : Val
  attributes : Val
  deprecated : Val
deriving DecidableEq

/-- Insertion into a Python `dict` modelled as an association list: an
existing key's entry is overwritten in place, a new key is appended. -/
def dictInsert (m : List (Val × α)) (k : Val) (v : α) : List (Val × α) :=
  if m.any (fun kv => kv.1 == k) then
    m.map (fun kv => if kv.1 == k then (k, v) else kv)
  else m ++ [(k, v)]

/-- The dict comprehension pattern used at lines 188, 408-409 and 430-431:
builds the id-keyed lookup table from a list (later duplicates overwrite,
Python `dict` semantics). -/
def buildTable (key : α → Val) (ps : List α) : List (Val × α) :=
  ps.foldl (fun m p => dictInsert m (key p) p) []

/-- Lookup in a modelled Python dict. -/
def assocFind (m : List (Val × α)) (k : Val) : Option α :=
  (m.find? (fun kv => kv.1 == k)).map (fun kv => kv.2)

/-- `DictionaryEnumeration` (dictionary.py lines 127-201).  The table
`_values_by_value_id` holds weak proxies to the members of `values`; the
proxies are modelled by the values themselves. -/
structure DictionaryEnumeration where
  id : Val
  entity : Option EntitySnap
  name : Val
  description : Val
  values : List DictionaryEnumerationValue
  values_by_value_id : List (Val × DictionaryEnumerationValue)
  deprecated : Val
deriving DecidableEq

/-- `DictionaryEntity` (dictionary.py lines 356-436). -/
structure DictionaryEntity where
  dictionary : Option DictionaryBase
  id : Val
  name : Val
  description : Val
  properties : List DictionaryProperty
  properties_by_id : List (Val × DictionaryProperty)
  attributes : Val
  deprecated : Val
deriving DecidableEq

/-- `Dictionary` (dictionary.py lines 439-499) after the loaders may have
attached `data_types` and `entities`. -/
structure Dictionary where
  id : Val
  description : Val
  version : Val
  data_types : Option (List DictionaryDataType)
  entities : List DictionaryEntity
  name : Val
  deprecated : Val

/-- The back-reference snapshot of a dictionary. -/
def Dictionary.toBase (d : Dictionary) : DictionaryBase :=
  { id := d.id, description := d.description, version := d.version,
    name := d.name, deprecated := d.deprecated }

/-- The back-reference snapshot of an entity. -/
def DictionaryEntity.toSnap (e : DictionaryEntity) : EntitySnap :=
  { dictionary := e.dictionary, id := e.id, name := e.name,
    description := e.description, attributes := e.attributes,
    deprecated := e.deprecated }

/-! ## Accessors -/

/-- `DictionaryEnumeration.value_for_id` (lines 163-165):
`self._values_by_value_id[id]` — raw `KeyError` on an unknown id. -/
def DictionaryEnumeration.value_for_id (e : DictionaryEnumeration) (id : Val) :
    Except PyErr DictionaryEnumerationValue :=
  match assocFind e.values_by_value_id id with
  | some v => .ok v
  | none => .error (.keyError id)

/-- `DictionaryEntity.property_by_id` (lines 390-391):
`self._properties_by_id.get(property_id, None)`. -/
def DictionaryEntity.property_by_id (e : DictionaryEntity) (property_id : Val) :
    Option DictionaryProperty :=
  assocFind e.properties_by_id property_id

/-- `DictionaryProperty.dictionary` (lines 314-317):
`self.entity.dictionary if self.entity else None`.  When the object stored in
`entity` is a `Dictionary` (the argument actually passed by
`DictionaryEntity.from_dict`, lines 406-407), the attribute access raises
`AttributeError`: `Dictionary.__init__` (lines 449-454) sets no attribute
named `dictionary` and the class defines none. -/
def DictionaryProperty.dictionary (p : DictionaryProperty) :
    Except PyErr (Option DictionaryBase) :=
  match p.entity with
  | none => .ok none
  | some (.entity e) => .ok e.dictionary
  | some (.dictionary _) => .error (.attributeError "dictionary")

/-- `DictionaryProperty.dictionary_type` (lines 319-321):
`self.dictionary.type_by_id(self.type_id) if self.dictionary else None`.
The `Dictionary` class (lines 439-499) defines no attribute or method named
`type_by_id` — its only methods are `__init__`, `from_dict`,
`from_yaml_dictionary` and `validate`, and no instance attribute of that name
is ever assigned anywhere in the repository — so whenever `self.dictionary`
is set the attribute access raises `AttributeError`. -/
def DictionaryProperty.dictionary_type (p : DictionaryProperty) :
    Except PyErr (Option DictionaryDataType) :=
  match p.dictionary with
  | .error e => .error e
  | .ok none => .ok none
  | .ok (some _) => .error (.attributeError "type_by_id")

/-! ## Record factories (`from_dict`) -/

/-- `DictionaryEnumerationValue.from_dict` (lines 90-124).  The
`int(d['integral_value'])` conversion sits in a `try` whose
`except Exception` turns any failure — a missing key included — into the
`DictionaryLoadingError` of lines 120-121. -/
def DictionaryEnumerationValue.from_dict (enumeration : Option EnumSnap) (d : Rec) :
    Except PyErr DictionaryEnumerationValue :=
  let id := d.getD "id" .vnull
  if !id.truthy then .error (.loadingError "Missing id in enumeration value")
  else
    match (d.get? "integral_value").bind Val.toInt? with
    | none => .error (.loadingError
        ("Invalid integral_value in enumeration value " ++ id.pyStr))
    | some iv =>
      .ok { id := id, enumeration := enumeration, integral_value := iv,
            description := d.getD "description" (.vstr ""),
            deprecated := d.getD "deprecated" (.vbool false) }

/-- The list comprehension of lines 180-181: parse each element of
`d['values']` through `DictionaryEnumerationValue.from_dict`, stopping at the
first raised error (elements must be mappings for `.get`). -/
def parseValues (sn : Option EnumSnap) : List Val → Except PyErr (List DictionaryEnumerationValue)
  | [] => .ok []
  | v :: vs =>
    match v.asRec with
    | .error e => .error e
    | .ok r =>
      match DictionaryEnumerationValue.from_dict sn r with
      | .error e => .error e
      | .ok x =>
        match parseValues sn vs with
        | .error e => .error e
        | .ok xs => .ok (x :: xs)

/-- The enumeration object `e` as the `values` comprehension of lines 180-181
sees it: `id`, `name`, `description` and `deprecated` already assigned from
the record, `values` not yet populated. -/
def enumSnapOf (entity : Option EntitySnap) (d : Rec) : EnumSnap :=
  { id := d.getD "id" .vnull, entity := entity,
    name := d.getD "name" .vnull,
    description := d.getD "description" .vnull,
    deprecated := d.getD "deprecated" (.vbool false) }

/-- `DictionaryEnumeration.from_dict` (lines 167-189).  `d['values']` is a
plain subscript: a missing key raises a raw `KeyError`.  The two uniqueness
checks (`len(set(...)) != len(...)`, lines 182-187) run after the whole
`values` comprehension has finished. -/
def DictionaryEnumeration.from_dict (entity : Option EntitySnap) (d : Rec) :
    Except PyErr DictionaryEnumeration :=
  let id := d.getD "id" .vnull
  if !id.truthy then .error (.loadingError "Missing id in enumeration")
  else
    let name := d.getD "name" .vnull
    if !name.truthy then .error (.loadingError ("Missing name in enumeration " ++ id.pyStr))
    else
      let description := d.getD "description" .vnull
      let deprecated := d.getD "deprecated" (.vbool false)
      match d.get? "values" with
      | none => .error (.keyError (.vstr "values"))
      | some vsVal =>
        match vsVal.asList with
        | .error e => .error e
        | .ok vrecs =>
          match parseValues (some (enumSnapOf entity d)) vrecs with
          | .error e => .error e
          | .ok values =>
            if (values.map (fun v => v.id)).dedup.length ≠ values.length then
              .error (.validationError ("Duplicate value ids in enumeration " ++ id.pyStr))
            else if (values.map (fun v => v.integral_value)).dedup.length ≠ values.length then
              .error (.validationError ("Duplicate integral values in enumeration " ++ id.pyStr))
            else
              .ok { id := id, entity := entity, name := name,
                    description := description, values := values,
                    values_by_value_id := buildTable (fun v => v.id) values,
                    deprecated := deprecated }

/-- `DictionaryDataType.from_dict` (lines 237-252). -/
def DictionaryDataType.from_dict (dictionary : Option DictionaryBase) (d : Rec) :
    Except PyErr DictionaryDataType :=
  let id := d.getD "id" .vnull
  if !id.truthy then .error (.loadingError "Missing id in data type")
  else
    let name := d.getD "name" .vnull
    if !name.truthy then .error (.loadingError ("Missing name in data type " ++ id.pyStr))
    else
      .ok { id := id, dictionary := dictionary, name := name,
            description := d.getD "description" .vnull,
            semantics := d.getD "semantics" (.vstr "value"),
            attributes := d.getD "attributes" (.vmap []),
            deprecated := d.getD "deprecated" (.vbool false) }

/-- `DictionaryProperty.from_dict` (lines 323-341).  The first parameter is
documented as "The entity this property belongs to" (lines 283-286), but the
call site at lines 406-407 passes the owning dictionary instead, so the
stored owner is a `PropOwner`. -/
def DictionaryProperty.from_dict (entity : Option PropOwner) (d : Rec) :
    Except PyErr DictionaryProperty :=
  let id := d.getD "id" .vnull
  if !id.truthy then .error (.loadingError "Missing id in property")
  else
    let name := d.getD "name" .vnull
    if !name.truthy then .error (.loadingError ("Missing name in property " ++ id.pyStr))
    else
      let type_id := d.getD "type" .vnull
      if !type_id.truthy then .error (.loadingError ("Missing type in property " ++ id.pyStr))
      else
        .ok { id := id, entity := entity, name := name, type_id := type_id,
              description := d.getD "description" .vnull,
              entity_id := .vnull,
              attributes := d.getD "attributes" (.vmap []),
              deprecated := d.getD "deprecated" (.vbool false) }

/-- The list comprehension of lines 406-407: parse the inline `properties`
records, passing `dictionary` — not the entity under construction — as the
owner (this mirrors the source text exactly; contrast line 428). -/
def parseInlineProps (dictionary : Option DictionaryBase) :
    List Val → Except PyErr (List DictionaryProperty)
  | [] => .ok []
  | p :: ps =>
    match p.asRec with
    | .error e => .error e
    | .ok r =>
      match DictionaryProperty.from_dict (dictionary.map PropOwner.dictionary) r with
      | .error e => .error e
      | .ok x =>
        match parseInlineProps dictionary ps with
        | .error e => .error e
        | .ok xs => .ok (x :: xs)

/-- `DictionaryEntity.from_dict` (lines 393-412). -/
def DictionaryEntity.from_dict (dictionary : Option DictionaryBase) (d : Rec) :
    Except PyErr DictionaryEntity :=
  let id := d.getD "id" .vnull
  if !id.truthy then .error (.loadingError "Missing id in entity")
  else
    let name := d.getD "name" .vnull
    if !name.truthy then .error (.loadingError ("Missing name in entity " ++ id.pyStr))
    else
      let description := d.getD "description" .vnull
      let inline : Except PyErr (List DictionaryProperty × List (Val × DictionaryProperty)) :=
        match d.get? "properties" with
        | none => .ok ([], [])
        | some pv =>
          match pv.asList with
          | .error e => .error e
          | .ok precs =>
            match parseInlineProps dictionary precs with
            | .error e => .error e
            | .ok props => .ok (props, buildTable (fun p => p.id) props)
      match inline with
      | .error e => .error e
      | .ok (props, table) =>
        .ok { dictionary := dictionary, id := id, name := name,
              description := description, properties := props,
              properties_by_id := table,
              attributes := d.getD "attributes" (.vmap []),
              deprecated := d.getD "deprecated" (.vbool false) }

/-- Split a character list at every occurrence of the separator `c` (the
pieces do not contain `c`; n separators yield n+1 pieces, as Python's
`str.split` and Lean's `String.splitOn` do on nonempty separators). -/
def splitOnChar (c : Char) : List Char → List (List Char)
  | [] => [[]]
  | x :: xs =>
    match splitOnChar c xs with
    | [] => if x == c then [[], []] else [[x]]
    | r :: rs => if x == c then [] :: r :: rs else (x :: r) :: rs

/-- A numeric identifier of a semantic version: nonempty, digits only, no
leading zero (except "0" itself). -/
def semverNumericId (s : List Char) : Bool :=
  !s.isEmpty && s.all Char.isDigit && (s.length == 1 || s.head? != some '0')

/-- A character allowed in prerelease/build identifiers. -/
def semverIdChar (c : Char) : Bool :=
  c.isAlphanum || c == '-'

/-- A prerelease identifier: nonempty, alphanumerics and hyphens; if purely
numeric it must not have a leading zero. -/
def semverPrereleaseId (s : List Char) : Bool :=
  !s.isEmpty && s.all semverIdChar &&
    (!s.all Char.isDigit || semverNumericId s)

/-- A build-metadata identifier: nonempty, alphanumerics and hyphens. -/
def semverBuildId (s : List Char) : Bool :=
  !s.isEmpty && s.all semverIdChar

/-- The `major.minor.patch` core: exactly three numeric identifiers. -/
def semverCore (s : List Char) : Bool :=
  match splitOnChar '.' s with
  | [ma, mi, pa] => semverNumericId ma && semverNumericId mi && semverNumericId pa
  | _ => false

/-- Core plus optional `-prerelease`: the first hyphen separates (the core
contains none, and hyphens inside prerelease identifiers stay put). -/
def semverCorePre (s : List Char) : Bool :=
  match splitOnChar '-' s with
  | [] => false
  | core :: rest =>
    semverCore core &&
      (rest.isEmpty ||
        (splitOnChar '.' (List.intercalate ['-'] rest)).all semverPrereleaseId)

/-- Modelled from the spec: `semver.VersionInfo.isvalid` is an external
library call (the `semver` package, imported at dictionary.py line 458) whose
code is not part of this repository.  Per the spec it accepts exactly the
syntactically valid semantic-version strings: `major.minor.patch` (numeric,
no leading zeros) plus an optional `-prerelease` (dot-separated alphanumeric/
hyphen identifiers, numeric ones without leading zeros) and an optional
`+build` (dot-separated alphanumeric/hyphen identifiers), per the standard
semantic-versioning grammar. -/
def semverIsValid (s : String) : Bool :=
  match splitOnChar '+' s.data with
  | [corePre] => semverCorePre corePre
  | [corePre, build] =>
    semverCorePre corePre && (splitOnChar '.' build).all semverBuildId
  | _ => false

/-- `Dictionary.from_dict` (lines 456-477).  The version check (lines
473-475): membership in `['master', 'development']`, otherwise
`semver.VersionInfo.isvalid` on the version string.  A truthy non-string
version reaching `isvalid` would hit the external library's regular
expression with a non-string argument (an interpreter `TypeError`); no
theorem below exercises that branch, every verified version is a string. -/
def Dictionary.from_dict (d : Rec) : Except PyErr Dictionary :=
  let id := d.getD "id" .vnull
  if !id.truthy then .error (.loadingError "Missing id in dictionary")
  else
    let name := d.getD "name" .vnull
    if !name.truthy then .error (.loadingError ("Missing name in dictionary " ++ id.pyStr))
    else
      let version := d.getD "version" .vnull
      if !version.truthy then
        .error (.loadingError ("Missing version in dictionary " ++ id.pyStr))
      else if version == .vstr "master" || version == .vstr "development" then
        .ok { id := id, description := d.getD "description" .vnull,
              version := version, data_types := none, entities := [],
              name := name, deprecated := d.getD "deprecated" (.vbool false) }
      else
        match version with
        | .vstr s =>
          if semverIsValid s then
            .ok { id := id, description := d.getD "description" .vnull,
                  version := version, data_types := none, entities := [],
                  name := name, deprecated := d.getD "deprecated" (.vbool false) }
          else
            .error (.validationError
              ("Version " ++ s ++ " in dictionary " ++ id.pyStr ++ " is invalid"))
        | _ => .error (.typeError "expected string or bytes-like object")

/-! ## File system and batch loaders

A path is its list of components (`pathlib.Path`): `path.parent` drops the
last component, `/` appends one.  `FS.read` models `open(path)` followed by
`yaml.safe_load`: it yields the parsed document, or `osError` (the open
failed — file absent, unreadable) or `yamlError` (the parse failed).
`FS.pathExists` models `path.exists()`. -/

structure FS where
  read : List String → Except PyErr Val
  pathExists : List String → Bool

/-- `str(path)` as it appears in wrap messages (POSIX rendering). -/
def pathStr (p : List String) : String :=
  String.intercalate "/" p

/-- `path.parent / sub / name`. -/
def sibling (path : List String) (sub name : String) : List String :=
  path.dropLast ++ [sub, name]

/-- The comprehension of line 198: each document element through
`DictionaryEnumeration.from_dict`. -/
def parseEnums (entity : Option EntitySnap) : List Val → Except PyErr (List DictionaryEnumeration)
  | [] => .ok []
  | v :: vs =>
    match v.asRec with
    | .error e => .error e
    | .ok r =>
      match DictionaryEnumeration.from_dict entity r with
      | .error e => .error e
      | .ok x =>
        match parseEnums entity vs with
        | .error e => .error e
        | .ok xs => .ok (x :: xs)

/-- `DictionaryEnumeration.from_yaml_enum_list` (lines 191-201): read and
parse the file, map the records through `from_dict`; only `OSError` /
`yaml.YAMLError` are caught and wrapped, everything raised by `from_dict`
passes through the `except` clause untouched. -/
def DictionaryEnumeration.from_yaml_enum_list (fs : FS) (entity : Option EntitySnap)
    (path : List String) : Except PyErr (List DictionaryEnumeration) :=
  catchLow
    (match fs.read path with
     | .error e => .error e
     | .ok y =>
       match y.asList with
       | .error e => .error e
       | .ok recs => parseEnums entity recs)
    ("Error reading enumeration file: " ++ pathStr path)

/-- The body of the `for` loop at lines 262-272: parse one data-type record,
then — when the per-type attributes file exists — load it and let its
contents replace the inline attributes wholesale. -/
def dataTypeStep (fs : FS) (dictionary : Option DictionaryBase) (path : List String)
    (dt : Val) : Except PyErr DictionaryDataType :=
  match dt.asRec with
  | .error e => .error e
  | .ok r =>
    match DictionaryDataType.from_dict dictionary r with
    | .error e => .error e
    | .ok v =>
      let attributes_path := sibling path "data-type-attributes" (v.id.pyStr ++ ".yaml")
      if fs.pathExists attributes_path then
        match fs.read attributes_path with
        | .error e => .error e
        | .ok attrs => .ok { v with attributes := attrs }
      else .ok v

def dataTypeLoop (fs : FS) (dictionary : Option DictionaryBase) (path : List String) :
    List Val → Except PyErr (List DictionaryDataType)
  | [] => .ok []
  | dt :: dts =>
    match dataTypeStep fs dictionary path dt with
    | .error e => .error e
    | .ok v =>
      match dataTypeLoop fs dictionary path dts with
      | .error e => .error e
      | .ok vs => .ok (v :: vs)

/-- `DictionaryDataType.from_yaml_data_type_list` (lines 254-276).  The wrap
message (line 276) says "enumeration" and carries the main `path` — both
taken verbatim from the source. -/
def DictionaryDataType.from_yaml_data_type_list (fs : FS) (dictionary : Option DictionaryBase)
    (path : List String) : Except PyErr (List DictionaryDataType) :=
  catchLow
    (match fs.read path with
     | .error e => .error e
     | .ok y =>
       match y.asList with
       | .error e => .error e
       | .ok dts => dataTypeLoop fs dictionary path dts)
    ("Error reading enumeration file: " ++ pathStr path)

/-- The comprehension of line 350: each record through
`DictionaryProperty.from_dict` with the given owner. -/
def parseProps (entity : Option PropOwner) : List Val → Except PyErr (List DictionaryProperty)
  | [] => .ok []
  | p :: ps =>
    match p.asRec with
    | .error e => .error e
    | .ok r =>
      match DictionaryProperty.from_dict entity r with
      | .error e => .error e
      | .ok x =>
        match parseProps entity ps with
        | .error e => .error e
        | .ok xs => .ok (x :: xs)

/-- `DictionaryProperty.from_yaml_property_list` (lines 343-353). -/
def DictionaryProperty.from_yaml_property_list (fs : FS) (entity : Option PropOwner)
    (path : List String) : Except PyErr (List DictionaryProperty) :=
  catchLow
    (match fs.read path with
     | .error e => .error e
     | .ok y =>
       match y.asList with
       | .error e => .error e
       | .ok recs => parseProps entity recs)
    ("Error reading property list file: " ++ pathStr path)

/-- The body of the `for` loop at lines 422-432: parse one entity record, then
load its full property list from the required sibling file
`properties-by-entity/<id>.yaml` (passing the entity itself as owner, line
428), overwrite `properties` with it and rebuild `_properties_by_id`.  A
failure of `from_yaml_property_list` is already a `DictionaryLoadingError`
and passes the enclosing `except (OSError, yaml.YAMLError)` untouched. -/
def entityStep (fs : FS) (dictionary : Option DictionaryBase) (path : List String)
    (erec : Val) : Except PyErr DictionaryEntity :=
  match erec.asRec with
  | .error e => .error e
  | .ok r =>
    match DictionaryEntity.from_dict dictionary r with
    | .error e => .error e
    | .ok v =>
      let properties_path := sibling path "properties-by-entity" (v.id.pyStr ++ ".yaml")
      match DictionaryProperty.from_yaml_property_list fs
          (some (.entity v.toSnap)) properties_path with
      | .error e => .error e
      | .ok props =>
        .ok { v with properties := props,
                     properties_by_id := buildTable (fun p => p.id) props }

def entityLoop (fs : FS) (dictionary : Option DictionaryBase) (path : List String) :
    List Val → Except PyErr (List DictionaryEntity)
  | [] => .ok []
  | e :: es =>
    match entityStep fs dictionary path e with
    | .error err => .error err
    | .ok v =>
      match entityLoop fs dictionary path es with
      | .error err => .error err
      | .ok vs => .ok (v :: vs)

/-- `DictionaryEntity.from_yaml_entity_list` (lines 414-436).  As in the
source, the wrap message of line 436 reads "enumeration file". -/
def DictionaryEntity.from_yaml_entity_list (fs : FS) (dictionary : Option DictionaryBase)
    (path : List String) : Except PyErr (List DictionaryEntity) :=
  catchLow
    (match fs.read path with
     | .error e => .error e
     | .ok y =>
       match y.asList with
       | .error e => .error e
       | .ok recs => entityLoop fs dictionary path recs)
    ("Error reading enumeration file: " ++ pathStr path)

/-- `Dictionary.from_yaml_dictionary` (lines 479-496): the `try` covers only
the root read and `Dictionary.from_dict`; the data-type and entity loads run
after it, with the fixed sibling paths `data-types.yaml` and
`entities.yaml`. -/
def Dictionary.from_yaml_dictionary (fs : FS) (path : List String) :
    Except PyErr Dictionary :=
  match catchLow
      (match fs.read path with
       | .error e => .error e
       | .ok y =>
         match y.asRec with
         | .error e => .error e
         | .ok r => Dictionary.from_dict r)
      ("Error reading dictionary file: " ++ pathStr path) with
  | .error e => .error e
  | .ok ret =>
    let datatypes_path := path.dropLast ++ ["data-types.yaml"]
    match DictionaryDataType.from_yaml_data_type_list fs (some ret.toBase) datatypes_path with
    | .error e => .error e
    | .ok dts =>
      let entities_path := path.dropLast ++ ["entities.yaml"]
      match DictionaryEntity.from_yaml_entity_list fs (some ret.toBase) entities_path with
      | .error e => .error e
      | .ok ents => .ok { ret with data_types := some dts, entities := ents }

/-! ## Helper lemmas -/

/-- A lookup on an association list none of whose keys is `k` misses. -/
theorem assocFind_eq_none {α : Type} (m : List (Val × α)) (k : Val)
    (h : ∀ kv ∈ m, kv.1 ≠ k) : assocFind m k = none := by
  unfold assocFind
  have hfind : m.find? (fun kv => kv.1 == k) = none :=
    List.find?_eq_none.mpr (fun kv hkv => by simpa using h kv hkv)
  rw [hfind]
  rfl

/-- `dictInsert` introduces no key besides the inserted one. -/
theorem dictInsert_keys {α : Type} (m : List (Val × α)) (k' : Val) (v : α) (k : Val)
    (hk : k ≠ k') (hm : ∀ kv ∈ m, kv.1 ≠ k) :
    ∀ kv ∈ dictInsert m k' v, kv.1 ≠ k := by
  intro kv hkv
  unfold dictInsert at hkv
  split at hkv
  · obtain ⟨kv0, hkv0, hkveq⟩ := List.mem_map.mp hkv
    by_cases h0 : (kv0.1 == k') = true
    · rw [if_pos h0] at hkveq
      rw [← hkveq]
      exact fun hcontra => hk hcontra.symm
    · rw [if_neg h0] at hkveq
      rw [← hkveq]
      exact hm kv0 hkv0
  · rcases List.mem_append.mp hkv with h1 | h2
    · exact hm kv h1
    · rw [List.mem_singleton.mp h2]
      exact fun hcontra => hk hcontra.symm
  -- both cases closed

/-- Folding `dictInsert` over elements whose keys all differ from `k` keeps
`k` out of the table. -/
theorem buildTable_keys_aux {α : Type} (key : α → Val) (k : Val) :
    ∀ (ps : List α), (∀ p ∈ ps, key p ≠ k) →
    ∀ (m : List (Val × α)), (∀ kv ∈ m, kv.1 ≠ k) →
    ∀ kv ∈ ps.foldl (fun m p => dictInsert m (key p) p) m, kv.1 ≠ k := by
  intro ps
  induction ps with
  | nil =>
    intro _ m hm
    simpa using hm
  | cons p ps ih =>
    intro hps m hm
    simp only [List.foldl_cons]
    exact ih (fun q hq => hps q (List.mem_cons_of_mem _ hq)) _
      (dictInsert_keys m (key p) p k
        (fun hkk => hps p (List.mem_cons_self _ _) hkk.symm) hm)

/-- A key absent from the source list is absent from the built table. -/
theorem assocFind_buildTable_eq_none {α : Type} (key : α → Val) (ps : List α) (k : Val)
    (h : k ∉ ps.map key) : assocFind (buildTable key ps) k = none := by
  apply assocFind_eq_none
  apply buildTable_keys_aux key k ps
  · intro p hp hpk
    exact h (List.mem_map.mpr ⟨p, hp, hpk⟩)
  · simp

/-- `catchLow` is the identity on successful computations. -/
theorem catchLow_ok {α : Type} (act : Except PyErr α) (msg : String) (a : α)
    (h : catchLow act msg = .ok a) : act = .ok a := by
  unfold catchLow at h
  split at h
  · split at h <;> exact absurd h (by simp)
  · injection h with h
    rw [h]

/-- A substring witness: `(pre ++ field ++ mid) ++ x` mentions `field`. -/
theorem mentions_field_mid (pre field mid x : String) :
    mentions field ((pre ++ field ++ mid) ++ x) :=
  ⟨pre, mid ++ x, String.append_assoc _ mid x⟩

/-- A substring witness for a closed message `pre ++ field ++ post`. -/
theorem mentions_concat (pre field post : String) :
    mentions field (pre ++ field ++ post) :=
  ⟨pre, post, rfl⟩

/-- A substring witness when the substring is the message's suffix. -/
theorem mentions_suffix (pre field : String) :
    mentions field (pre ++ field) :=
  ⟨pre, "", by rw [String.append_empty]⟩

/-! ## Claims -/

/-- A concrete loaded dictionary (as `Dictionary.from_dict` would leave it),
used by several concrete statements below. -/
def sampleDictBase : DictionaryBase :=
  { id := .vstr "d1", description := .vnull, version := .vstr "0.0.1",
    name := .vstr "D", deprecated := .vbool false }

/-- C1: the claim states that for a property whose owning dictionary is set,
`dictionary_type` returns the data type of the owning dictionary whose id
equals the property's `type_id`; on the code, `Dictionary` defines no
attribute `type_by_id`, so `dictionary_type` raises `AttributeError` for
every property with an owning dictionary (first conjunct evaluates the code
at such an input).  The claim's other half — no owning entity/dictionary →
null — does hold (second conjunct). -/
theorem c1_dictionary_type_raises_attribute_error :
    DictionaryProperty.dictionary_type
      { id := .vstr "p1",
        entity := some (.entity
          { dictionary := some sampleDictBase, id := .vstr "e1",
            name := .vstr "E", description := .vnull,
            attributes := .vmap [], deprecated := .vbool false }),
        name := .vstr "P", type_id := .vstr "int32", description := .vnull,
        entity_id := .vnull, attributes := .vmap [], deprecated := .vbool false }
      = .error (.attributeError "type_by_id")
    ∧ DictionaryProperty.dictionary_type
      { id := .vstr "p1", entity := none, name := .vstr "P",
        type_id := .vstr "int32", description := .vnull, entity_id := .vnull,
        attributes := .vmap [], deprecated := .vbool false }
      = .ok none :=
  ⟨rfl, rfl⟩

/-- C2: the claim states that `DictionaryEntity.from_dict` parses an inline
`properties` list into properties whose back-reference designates the
constructed entity, the dictionary resolving through it.  On the code (lines
406-407 pass `dictionary`, not the entity under construction, to
`DictionaryProperty.from_dict`) the parsed property's `entity` holds the
dictionary, and its `dictionary` accessor raises `AttributeError`; only the
id → property table is built as claimed. -/
theorem c2_inline_properties_owner_is_dictionary :
    Except.map
      (fun ent => (ent.properties.map (fun p => p.entity),
                   ent.properties.map (fun p => p.dictionary),
                   (ent.property_by_id (.vstr "p1")).map (fun p => p.id)))
      (DictionaryEntity.from_dict (some sampleDictBase)
        [("id", .vstr "e1"), ("name", .vstr "E1"),
         ("properties", .vlist
           [.vmap [("id", .vstr "p1"), ("name", .vstr "P1"), ("type", .vstr "t1")]])])
      = .ok ([some (.dictionary sampleDictBase)],
             [.error (.attributeError "dictionary")],
             some (.vstr "p1")) :=
  rfl

/-- C3: `property_by_id` returns none for an id absent from the entity's
properties (given the table built from them as the factories build it), while
`value_for_id` raises `KeyError` for an id absent from the enumeration's
values. -/
theorem c3_lookup_failure_asymmetry :
    (∀ (e : DictionaryEntity) (pid : Val),
      e.properties_by_id = buildTable (fun p => p.id) e.properties →
      pid ∉ e.properties.map (fun p => p.id) →
      e.property_by_id pid = none)
    ∧ (∀ (en : DictionaryEnumeration) (vid : Val),
      en.values_by_value_id = buildTable (fun v => v.id) en.values →
      vid ∉ en.values.map (fun v => v.id) →
      en.value_for_id vid = .error (.keyError vid)) := by
  constructor
  · intro e pid htab hmem
    unfold DictionaryEntity.property_by_id
    rw [htab]
    exact assocFind_buildTable_eq_none _ _ _ hmem
  · intro en vid htab hmem
    unfold DictionaryEnumeration.value_for_id
    rw [htab, assocFind_buildTable_eq_none _ _ _ hmem]

def propC3 : DictionaryProperty :=
  { id := .vstr "ok.index", entity := none, name := .vstr "P",
    type_id := .vstr "int32", description := .vnull, entity_id := .vnull,
    attributes := .vmap [], deprecated := .vbool false }

def entC3 : DictionaryEntity :=
  { dictionary := none, id := .vstr "ok", name := .vstr "E",
    description := .vnull, properties := [propC3],
    properties_by_id := buildTable (fun p => p.id) [propC3],
    attributes := .vmap [], deprecated := .vbool false }

def valC3 : DictionaryEnumerationValue :=
  { id := .vstr "a", enumeration := none, integral_value := 1,
    description := .vstr "", deprecated := .vbool false }

def enumC3 : DictionaryEnumeration :=
  { id := .vstr "anenum", entity := none, name := .vstr "N",
    description := .vnull, values := [valC3],
    values_by_value_id := buildTable (fun v => v.id) [valC3],
    deprecated := .vbool false }

/-- C3, witnessed at a one-property entity and a one-value enumeration. -/
theorem c3_lookup_failure_asymmetry_witness :
    DictionaryEntity.property_by_id entC3 (.vstr "unknown") = none
    ∧ DictionaryEnumeration.value_for_id enumC3 (.vstr "unknown")
        = .error (.keyError (.vstr "unknown")) :=
  ⟨c3_lookup_failure_asymmetry.1 entC3 _ rfl (by decide),
   c3_lookup_failure_asymmetry.2 enumC3 _ rfl (by decide)⟩

/-- C10: an enumeration record with truthy id and name but no `values` key
makes `DictionaryEnumeration.from_dict` raise a raw `KeyError`, which is
neither a `DictionaryLoadingError` nor a `DictionaryValidationError`. -/
theorem c10_missing_values_raw_key_error :
    ∀ (ent : Option EntitySnap) (d : Rec),
    (d.getD "id" .vnull).truthy = true →
    (d.getD "name" .vnull).truthy = true →
    d.get? "values" = none →
    DictionaryEnumeration.from_dict ent d = .error (.keyError (.vstr "values"))
    ∧ (∀ m, DictionaryEnumeration.from_dict ent d ≠ .error (.loadingError m))
    ∧ (∀ m, DictionaryEnumeration.from_dict ent d ≠ .error (.validationError m)) := by
  intro ent d h1 h2 h3
  have hmain : DictionaryEnumeration.from_dict ent d = .error (.keyError (.vstr "values")) := by
    simp [DictionaryEnumeration.from_dict, h1, h2, h3]
  refine ⟨hmain, ?_, ?_⟩ <;> intro m <;> rw [hmain] <;> simp

/-- C10, witnessed at a concrete record. -/
theorem c10_missing_values_raw_key_error_witness :
    DictionaryEnumeration.from_dict none [("id", .vstr "anenum"), ("name", .vstr "N")]
      = .error (.keyError (.vstr "values")) :=
  (c10_missing_values_raw_key_error none
    [("id", .vstr "anenum"), ("name", .vstr "N")] rfl rfl rfl).1

/-- `DictionaryEnumerationValue.from_dict` can only raise
`DictionaryLoadingError`. -/
theorem enumValue_from_dict_error (sn : Option EnumSnap) (r : Rec) (e : PyErr)
    (h : DictionaryEnumerationValue.from_dict sn r = .error e) :
    ∃ m, e = .loadingError m := by
  simp only [DictionaryEnumerationValue.from_dict] at h
  split at h
  · exact ⟨_, by injection h with h2; exact h2.symm⟩
  · split at h
    · exact ⟨_, by injection h with h2; exact h2.symm⟩
    · exact absurd h (by simp)

/-- `Val.asRec` fails only with the modelled `AttributeError`. -/
theorem asRec_error (v : Val) (e : PyErr) (h : v.asRec = .error e) :
    e = .attributeError "get" := by
  cases v <;> simp [Val.asRec] at h <;> exact h.symm

/-- A failure of the `values` comprehension is a value-record failure — a
`LoadingError` (or the modelled attribute error on a non-mapping element) —
never a `ValidationError`. -/
theorem parseValues_error_shape (sn : Option EnumSnap) :
    ∀ (vs : List Val) (e : PyErr), parseValues sn vs = .error e →
    (∃ m, e = .loadingError m) ∨ e = .attributeError "get" := by
  intro vs
  induction vs with
  | nil =>
    intro e h
    exact absurd h (by simp [parseValues])
  | cons v vs ih =>
    intro e h
    unfold parseValues at h
    cases hrec : v.asRec with
    | error e1 =>
      simp only [hrec] at h
      injection h with h
      exact Or.inr (h ▸ asRec_error v e1 hrec)
    | ok r =>
      simp only [hrec] at h
      cases hfd : DictionaryEnumerationValue.from_dict sn r with
      | error e2 =>
        simp only [hfd] at h
        injection h with h
        obtain ⟨m, hm⟩ := enumValue_from_dict_error sn r e2 hfd
        exact Or.inl ⟨m, h ▸ hm⟩
      | ok x =>
        simp only [hfd] at h
        cases hrest : parseValues sn vs with
        | error e3 =>
          simp only [hrest] at h
          injection h with h
          exact h ▸ ih e3 hrest
        | ok xs =>
          simp only [hrest] at h
          exact absurd h (by simp)

/-- C4: on an enumeration record whose id and name pass and whose `values`
all parse, duplicate value ids raise the "Duplicate value ids" ValidationError
and (ids unique) duplicate integral values raise the "Duplicate integral
values" ValidationError; and whenever some value record fails to parse, the
outcome is exactly that parse failure — which is never a ValidationError — so
the duplicate checks only ever fire after every value record has parsed. -/
theorem c4_enumeration_duplicate_checks_after_parse :
    ∀ (ent : Option EntitySnap) (d : Rec) (vrecs : List Val),
    (d.getD "id" .vnull).truthy = true →
    (d.getD "name" .vnull).truthy = true →
    d.get? "values" = some (.vlist vrecs) →
    (∀ values, parseValues (some (enumSnapOf ent d)) vrecs = .ok values →
      ((values.map (fun v => v.id)).dedup.length ≠ values.length →
        DictionaryEnumeration.from_dict ent d = .error (.validationError
          ("Duplicate value ids in enumeration " ++ (d.getD "id" .vnull).pyStr)))
      ∧ ((values.map (fun v => v.id)).dedup.length = values.length →
        (values.map (fun v => v.integral_value)).dedup.length ≠ values.length →
        DictionaryEnumeration.from_dict ent d = .error (.validationError
          ("Duplicate integral values in enumeration " ++ (d.getD "id" .vnull).pyStr))))
    ∧ (∀ e, parseValues (some (enumSnapOf ent d)) vrecs = .error e →
        DictionaryEnumeration.from_dict ent d = .error e
        ∧ ∀ m, e ≠ .validationError m) := by
  intro ent d vrecs h1 h2 h3
  constructor
  · intro values hok
    constructor
    · intro hdup
      simp [DictionaryEnumeration.from_dict, Val.asList, h1, h2, h3, hok, hdup]
    · intro hids hdup
      simp [DictionaryEnumeration.from_dict, Val.asList, h1, h2, h3, hok, hids, hdup]
  · intro e herr
    constructor
    · simp [DictionaryEnumeration.from_dict, Val.asList, h1, h2, h3, herr]
    · intro m hm
      rcases parseValues_error_shape _ _ _ herr with ⟨m', hm'⟩ | hm' <;>
        rw [hm] at hm' <;> exact absurd hm' (by simp)

def dDupIds : Rec :=
  [("id", .vstr "en"), ("name", .vstr "N"),
   ("values", .vlist
     [.vmap [("id", .vstr "a"), ("integral_value", .vint 1)],
      .vmap [("id", .vstr "a"), ("integral_value", .vint 2)]])]

def dDupIv : Rec :=
  [("id", .vstr "en"), ("name", .vstr "N"),
   ("values", .vlist
     [.vmap [("id", .vstr "a"), ("integral_value", .vint 1)],
      .vmap [("id", .vstr "b"), ("integral_value", .vint 1)]])]

def dBadVal : Rec :=
  [("id", .vstr "en"), ("name", .vstr "N"),
   ("values", .vlist
     [.vmap [("id", .vstr "a"), ("integral_value", .vint 1)],
      .vmap [("integral_value", .vint 2)]])]

/-- C4, witnessed: duplicate ids, duplicate integral values, and a
non-parsing value record, each at a concrete enumeration record. -/
theorem c4_enumeration_duplicate_checks_after_parse_witness :
    DictionaryEnumeration.from_dict none dDupIds
      = .error (.validationError "Duplicate value ids in enumeration en")
    ∧ DictionaryEnumeration.from_dict none dDupIv
      = .error (.validationError "Duplicate integral values in enumeration en")
    ∧ DictionaryEnumeration.from_dict none dBadVal
      = .error (.loadingError "Missing id in enumeration value") :=
  ⟨((c4_enumeration_duplicate_checks_after_parse none dDupIds _ rfl rfl rfl).1
      _ rfl).1 (by decide),
   ((c4_enumeration_duplicate_checks_after_parse none dDupIv _ rfl rfl rfl).1
      _ rfl).2 (by decide) (by decide),
   ((c4_enumeration_duplicate_checks_after_parse none dBadVal _ rfl rfl rfl).2
      _ rfl).1⟩

/-- Evaluation of `Dictionary.from_dict` past the version check, for a record
with truthy id and name and a nonempty string version: accepted exactly for
"master", "development", or a valid semantic version, otherwise the
ValidationError of lines 473-475. -/
theorem dictionary_from_dict_version (d : Rec) (s : String)
    (h1 : (d.getD "id" .vnull).truthy = true)
    (h2 : (d.getD "name" .vnull).truthy = true)
    (hv : d.getD "version" .vnull = .vstr s)
    (hse : s.isEmpty = false) :
    Dictionary.from_dict d =
      (if s = "master" ∨ s = "development" ∨ semverIsValid s = true then
        .ok { id := d.getD "id" .vnull, description := d.getD "description" .vnull,
              version := .vstr s, data_types := none, entities := [],
              name := d.getD "name" .vnull,
              deprecated := d.getD "deprecated" (.vbool false) }
      else
        .error (.validationError
          ("Version " ++ s ++ " in dictionary "
            ++ (d.getD "id" .vnull).pyStr ++ " is invalid"))) := by
  have hvt : (Val.vstr s).truthy = true := by simp [Val.truthy, hse]
  by_cases hm : s = "master"
  · subst hm
    simp [Dictionary.from_dict, h1, h2, hv, hvt]
  · by_cases hd : s = "development"
    · subst hd
      simp [Dictionary.from_dict, h1, h2, hv, hvt]
    · by_cases hsv : semverIsValid s = true
      · simp [Dictionary.from_dict, h1, h2, hv, hvt, hm, hd, hsv]
      · simp [Dictionary.from_dict, h1, h2, hv, hvt, hm, hd, hsv]

/-- C5: for a dictionary record with truthy id and name and a nonempty string
version, the version is accepted iff it is "master", "development" or a valid
semantic-version string (the external `semver.VersionInfo.isvalid` being
modelled from the spec as `semverIsValid`); any other version string raises a
ValidationError whose message mentions the version and the dictionary id. -/
theorem c5_version_validation :
    ∀ (d : Rec) (s : String),
    (d.getD "id" .vnull).truthy = true →
    (d.getD "name" .vnull).truthy = true →
    d.getD "version" .vnull = .vstr s →
    s ≠ "" →
    ((s = "master" ∨ s = "development" ∨ semverIsValid s = true) →
      ∃ dic, Dictionary.from_dict d = .ok dic)
    ∧ (s ≠ "master" → s ≠ "development" → semverIsValid s = false →
      Dictionary.from_dict d = .error (.validationError
        ("Version " ++ s ++ " in dictionary "
          ++ (d.getD "id" .vnull).pyStr ++ " is invalid"))
      ∧ mentions s
        ("Version " ++ s ++ " in dictionary "
          ++ (d.getD "id" .vnull).pyStr ++ " is invalid")
      ∧ mentions ((d.getD "id" .vnull).pyStr)
        ("Version " ++ s ++ " in dictionary "
          ++ (d.getD "id" .vnull).pyStr ++ " is invalid")) := by
  intro d s h1 h2 hv hs
  have hse : s.isEmpty = false := by
    cases hie : s.isEmpty with
    | false => rfl
    | true => exact absurd ((String.isEmpty_iff s).mp hie) hs
  have hcore := dictionary_from_dict_version d s h1 h2 hv hse
  constructor
  · intro hacc
    rw [hcore, if_pos hacc]
    exact ⟨_, rfl⟩
  · intro hm hd hsv
    have hneg : ¬(s = "master" ∨ s = "development" ∨ semverIsValid s = true) := by
      rintro (h | h | h)
      · exact hm h
      · exact hd h
      · rw [hsv] at h
        exact Bool.false_ne_true h
    rw [hcore, if_neg hneg]
    refine ⟨rfl, ?_, ?_⟩
    · exact ⟨"Version ",
        " in dictionary " ++ ((d.getD "id" .vnull).pyStr ++ " is invalid"),
        by simp [String.append_assoc]⟩
    · exact ⟨"Version " ++ s ++ " in dictionary ", " is invalid",
        by simp [String.append_assoc]⟩

def dOK5 : Rec :=
  [("id", .vstr "dict1"), ("name", .vstr "D"), ("version", .vstr "0.0.1")]

def dBad5 : Rec :=
  [("id", .vstr "dict1"), ("name", .vstr "D"), ("version", .vstr "not-a-version")]

/-- C5, witnessed: "0.0.1" is accepted, "not-a-version" is rejected with the
ValidationError naming version and dictionary id. -/
theorem c5_version_validation_witness :
    (∃ dic, Dictionary.from_dict dOK5 = .ok dic)
    ∧ Dictionary.from_dict dBad5 = .error (.validationError
        "Version not-a-version in dictionary dict1 is invalid") :=
  ⟨(c5_version_validation dOK5 "0.0.1" rfl rfl rfl (by decide)).1
      (Or.inr (Or.inr (by decide))),
   ((c5_version_validation dBad5 "not-a-version" rfl rfl rfl (by decide)).2
      (by decide) (by decide) (by decide)).1⟩

/-- A missing-or-empty field read through `d.get(k, None)` is falsy. -/
theorem getD_vnull_falsy (d : Rec) (k : String) (h : d.missingOrEmptyStr k) :
    (d.getD k .vnull).truthy = false := by
  rcases h with h | h
  · simp [Rec.getD, h, Val.truthy]
  · simp [Rec.getD, h, Val.truthy]
    decide

/-- A missing-or-empty `integral_value` fails the `int(...)` conversion. -/
theorem getBind_toInt_none (d : Rec) (h : d.missingOrEmptyStr "integral_value") :
    (d.get? "integral_value").bind Val.toInt? = none := by
  rcases h with h | h <;> simp [h, Val.toInt?, stripSpaces, pyNat?]

/-- The result `r` is a `DictionaryLoadingError` whose message mentions
`field`. -/
def failsNaming {α : Type} (r : Except PyErr α) (field : String) : Prop :=
  ∃ m, r = .error (.loadingError m) ∧ mentions field m

/-- Transport of `mentions_field_mid` through a merged string literal. -/
theorem mentions_lit_append (lit pre field mid x : String)
    (h : lit = pre ++ field ++ mid) : mentions field (lit ++ x) := by
  rw [h]
  exact mentions_field_mid pre field mid x


/-- C8: every `from_dict` factory raises a `DictionaryLoadingError` naming
the missing field when a required field (id, name, type, version,
integral_value, as applicable to the record kind) is missing or empty, the
fields earlier in that factory's checking order being present. -/
theorem c8_missing_required_field_loading_error :
    (∀ (sn : Option EnumSnap) (d : Rec), d.missingOrEmptyStr "id" →
      failsNaming (DictionaryEnumerationValue.from_dict sn d) "id")
  ∧ (∀ (sn : Option EnumSnap) (d : Rec),
      (d.getD "id" .vnull).truthy = true → d.missingOrEmptyStr "integral_value" →
      failsNaming (DictionaryEnumerationValue.from_dict sn d) "integral_value")
  ∧ (∀ (ent : Option EntitySnap) (d : Rec), d.missingOrEmptyStr "id" →
      failsNaming (DictionaryEnumeration.from_dict ent d) "id")
  ∧ (∀ (ent : Option EntitySnap) (d : Rec),
      (d.getD "id" .vnull).truthy = true → d.missingOrEmptyStr "name" →
      failsNaming (DictionaryEnumeration.from_dict ent d) "name")
  ∧ (∀ (dic : Option DictionaryBase) (d : Rec), d.missingOrEmptyStr "id" →
      failsNaming (DictionaryDataType.from_dict dic d) "id")
  ∧ (∀ (dic : Option DictionaryBase) (d : Rec),
      (d.getD "id" .vnull).truthy = true → d.missingOrEmptyStr "name" →
      failsNaming (DictionaryDataType.from_dict dic d) "name")
  ∧ (∀ (own : Option PropOwner) (d : Rec), d.missingOrEmptyStr "id" →
      failsNaming (DictionaryProperty.from_dict own d) "id")
  ∧ (∀ (own : Option PropOwner) (d : Rec),
      (d.getD "id" .vnull).truthy = true → d.missingOrEmptyStr "name" →
      failsNaming (DictionaryProperty.from_dict own d) "name")
  ∧ (∀ (own : Option PropOwner) (d : Rec),
      (d.getD "id" .vnull).truthy = true → (d.getD "name" .vnull).truthy = true →
      d.missingOrEmptyStr "type" →
      failsNaming (DictionaryProperty.from_dict own d) "type")
  ∧ (∀ (dic : Option DictionaryBase) (d : Rec), d.missingOrEmptyStr "id" →
      failsNaming (DictionaryEntity.from_dict dic d) "id")
  ∧ (∀ (dic : Option DictionaryBase) (d : Rec),
      (d.getD "id" .vnull).truthy = true → d.missingOrEmptyStr "name" →
      failsNaming (DictionaryEntity.from_dict dic d) "name")
  ∧ (∀ (d : Rec), d.missingOrEmptyStr "id" →
      failsNaming (Dictionary.from_dict d) "id")
  ∧ (∀ (d : Rec),
      (d.getD "id" .vnull).truthy = true → d.missingOrEmptyStr "name" →
      failsNaming (Dictionary.from_dict d) "name")
  ∧ (∀ (d : Rec),
      (d.getD "id" .vnull).truthy = true → (d.getD "name" .vnull).truthy = true →
      d.missingOrEmptyStr "version" →
      failsNaming (Dictionary.from_dict d) "version") := by
  refine ⟨?_, ?_, ?_, ?_, ?_, ?_, ?_, ?_, ?_, ?_, ?_, ?_, ?_, ?_⟩
  · intro sn d h
    have he : DictionaryEnumerationValue.from_dict sn d
        = .error (.loadingError "Missing id in enumeration value") := by
      simp [DictionaryEnumerationValue.from_dict, getD_vnull_falsy d "id" h]
    exact ⟨_, he, ⟨"Missing ", " in enumeration value", by decide⟩⟩
  · intro sn d h1 h2
    have he : DictionaryEnumerationValue.from_dict sn d
        = .error (.loadingError
            ("Invalid integral_value in enumeration value "
              ++ (d.getD "id" .vnull).pyStr)) := by
      simp [DictionaryEnumerationValue.from_dict, h1, getBind_toInt_none d h2]
    exact ⟨_, he, mentions_lit_append _ "Invalid " "integral_value"
      " in enumeration value " _ (by decide)⟩
  · intro ent d h
    have he : DictionaryEnumeration.from_dict ent d
        = .error (.loadingError "Missing id in enumeration") := by
      simp [DictionaryEnumeration.from_dict, getD_vnull_falsy d "id" h]
    exact ⟨_, he, ⟨"Missing ", " in enumeration", by decide⟩⟩
  · intro ent d h1 h2
    have he : DictionaryEnumeration.from_dict ent d
        = .error (.loadingError
            ("Missing name in enumeration " ++ (d.getD "id" .vnull).pyStr)) := by
      simp [DictionaryEnumeration.from_dict, h1, getD_vnull_falsy d "name" h2]
    exact ⟨_, he, mentions_lit_append _ "Missing " "name" " in enumeration " _ (by decide)⟩
  · intro dic d h
    have he : DictionaryDataType.from_dict dic d
        = .error (.loadingError "Missing id in data type") := by
      simp [DictionaryDataType.from_dict, getD_vnull_falsy d "id" h]
    exact ⟨_, he, ⟨"Missing ", " in data type", by decide⟩⟩
  · intro dic d h1 h2
    have he : DictionaryDataType.from_dict dic d
        = .error (.loadingError
            ("Missing name in data type " ++ (d.getD "id" .vnull).pyStr)) := by
      simp [DictionaryDataType.from_dict, h1, getD_vnull_falsy d "name" h2]
    exact ⟨_, he, mentions_lit_append _ "Missing " "name" " in data type " _ (by decide)⟩
  · intro own d h
    have he : DictionaryProperty.from_dict own d
        = .error (.loadingError "Missing id in property") := by
      simp [DictionaryProperty.from_dict, getD_vnull_falsy d "id" h]
    exact ⟨_, he, ⟨"Missing ", " in property", by decide⟩⟩
  · intro own d h1 h2
    have he : DictionaryProperty.from_dict own d
        = .error (.loadingError
            ("Missing name in property " ++ (d.getD "id" .vnull).pyStr)) := by
      simp [DictionaryProperty.from_dict, h1, getD_vnull_falsy d "name" h2]
    exact ⟨_, he, mentions_lit_append _ "Missing " "name" " in property " _ (by decide)⟩
  · intro own d h1 h2 h3
    have he : DictionaryProperty.from_dict own d
        = .error (.loadingError
            ("Missing type in property " ++ (d.getD "id" .vnull).pyStr)) := by
      simp [DictionaryProperty.from_dict, h1, h2, getD_vnull_falsy d "type" h3]
    exact ⟨_, he, mentions_lit_append _ "Missing " "type" " in property " _ (by decide)⟩
  · intro dic d h
    have he : DictionaryEntity.from_dict dic d
        = .error (.loadingError "Missing id in entity") := by
      simp [DictionaryEntity.from_dict, getD_vnull_falsy d "id" h]
    exact ⟨_, he, ⟨"Missing ", " in entity", by decide⟩⟩
  · intro dic d h1 h2
    have he : DictionaryEntity.from_dict dic d
        = .error (.loadingError
            ("Missing name in entity " ++ (d.getD "id" .vnull).pyStr)) := by
      simp [DictionaryEntity.from_dict, h1, getD_vnull_falsy d "name" h2]
    exact ⟨_, he, mentions_lit_append _ "Missing " "name" " in entity " _ (by decide)⟩
  · intro d h
    have he : Dictionary.from_dict d
        = .error (.loadingError "Missing id in dictionary") := by
      simp [Dictionary.from_dict, getD_vnull_falsy d "id" h]
    exact ⟨_, he, ⟨"Missing ", " in dictionary", by decide⟩⟩
  · intro d h1 h2
    have he : Dictionary.from_dict d
        = .error (.loadingError
            ("Missing name in dictionary " ++ (d.getD "id" .vnull).pyStr)) := by
      simp [Dictionary.from_dict, h1, getD_vnull_falsy d "name" h2]
    exact ⟨_, he, mentions_lit_append _ "Missing " "name" " in dictionary " _ (by decide)⟩
  · intro d h1 h2 h3
    have he : Dictionary.from_dict d
        = .error (.loadingError
            ("Missing version in dictionary " ++ (d.getD "id" .vnull).pyStr)) := by
      simp [Dictionary.from_dict, h1, h2, getD_vnull_falsy d "version" h3]
    exact ⟨_, he, mentions_lit_append _ "Missing " "version" " in dictionary " _ (by decide)⟩

/-- C8, witnessed: one concrete record per factory/field pair (the entity
name case uses an empty rather than missing field). -/
theorem c8_missing_required_field_loading_error_witness :
    failsNaming (DictionaryEnumerationValue.from_dict none ([] : Rec)) "id"
    ∧ failsNaming (DictionaryEnumerationValue.from_dict none [("id", .vstr "a")]) "integral_value"
    ∧ failsNaming (DictionaryEnumeration.from_dict none ([] : Rec)) "id"
    ∧ failsNaming (DictionaryEnumeration.from_dict none [("id", .vstr "e")]) "name"
    ∧ failsNaming (DictionaryDataType.from_dict none ([] : Rec)) "id"
    ∧ failsNaming (DictionaryDataType.from_dict none [("id", .vstr "t")]) "name"
    ∧ failsNaming (DictionaryProperty.from_dict none ([] : Rec)) "id"
    ∧ failsNaming (DictionaryProperty.from_dict none [("id", .vstr "p")]) "name"
    ∧ failsNaming (DictionaryProperty.from_dict none
        [("id", .vstr "p"), ("name", .vstr "P")]) "type"
    ∧ failsNaming (DictionaryEntity.from_dict none ([] : Rec)) "id"
    ∧ failsNaming (DictionaryEntity.from_dict none
        [("id", .vstr "e"), ("name", .vstr "")]) "name"
    ∧ failsNaming (Dictionary.from_dict ([] : Rec)) "id"
    ∧ failsNaming (Dictionary.from_dict [("id", .vstr "d")]) "name"
    ∧ failsNaming (Dictionary.from_dict
        [("id", .vstr "d"), ("name", .vstr "D")]) "version" :=
  ⟨c8_missing_required_field_loading_error.1 none [] (Or.inl rfl),
   c8_missing_required_field_loading_error.2.1 none [("id", .vstr "a")] rfl (Or.inl rfl),
   c8_missing_required_field_loading_error.2.2.1 none [] (Or.inl rfl),
   c8_missing_required_field_loading_error.2.2.2.1 none [("id", .vstr "e")] rfl (Or.inl rfl),
   c8_missing_required_field_loading_error.2.2.2.2.1 none [] (Or.inl rfl),
   c8_missing_required_field_loading_error.2.2.2.2.2.1 none [("id", .vstr "t")] rfl (Or.inl rfl),
   c8_missing_required_field_loading_error.2.2.2.2.2.2.1 none [] (Or.inl rfl),
   c8_missing_required_field_loading_error.2.2.2.2.2.2.2.1 none
     [("id", .vstr "p")] rfl (Or.inl rfl),
   c8_missing_required_field_loading_error.2.2.2.2.2.2.2.2.1 none
     [("id", .vstr "p"), ("name", .vstr "P")] rfl rfl (Or.inl rfl),
   c8_missing_required_field_loading_error.2.2.2.2.2.2.2.2.2.1 none [] (Or.inl rfl),
   c8_missing_required_field_loading_error.2.2.2.2.2.2.2.2.2.2.1 none
     [("id", .vstr "e"), ("name", .vstr "")] rfl (Or.inr rfl),
   c8_missing_required_field_loading_error.2.2.2.2.2.2.2.2.2.2.2.1 [] (Or.inl rfl),
   c8_missing_required_field_loading_error.2.2.2.2.2.2.2.2.2.2.2.2.1
     [("id", .vstr "d")] rfl (Or.inl rfl),
   c8_missing_required_field_loading_error.2.2.2.2.2.2.2.2.2.2.2.2.2
     [("id", .vstr "d"), ("name", .vstr "D")] rfl rfl (Or.inl rfl)⟩

/-- Every entity returned by the loop of lines 422-432 is produced by the
loop body applied to some record of the input list. -/
theorem entityLoop_mem (fs : FS) (dict : Option DictionaryBase) (path : List String) :
    ∀ (recs : List Val) (ret : List DictionaryEntity),
    entityLoop fs dict path recs = .ok ret →
    ∀ v ∈ ret, ∃ erec ∈ recs, entityStep fs dict path erec = .ok v := by
  intro recs
  induction recs with
  | nil =>
    intro ret h v hv
    unfold entityLoop at h
    injection h with h
    subst h
    exact absurd hv (List.not_mem_nil v)
  | cons e es ih =>
    intro ret h v hv
    unfold entityLoop at h
    cases hstep : entityStep fs dict path e with
    | error err => simp [hstep] at h
    | ok v0 =>
      simp only [hstep] at h
      cases hrest : entityLoop fs dict path es with
      | error err => simp [hrest] at h
      | ok vs =>
        simp only [hrest] at h
        injection h with h
        subst h
        rcases List.mem_cons.mp hv with rfl | hv2
        · exact ⟨e, List.mem_cons_self _ _, hstep⟩
        · obtain ⟨erec, hm, hs⟩ := ih vs hrest v hv2
          exact ⟨erec, List.mem_cons_of_mem _ hm, hs⟩

/-- Inversion of the loop body: a successfully produced entity is the parsed
record with its properties replaced by the sibling file's list and its lookup
table rebuilt from that list. -/
theorem entityStep_ok (fs : FS) (dict : Option DictionaryBase) (path : List String)
    (erec : Val) (v : DictionaryEntity)
    (h : entityStep fs dict path erec = .ok v) :
    ∃ r v0 props,
      erec.asRec = .ok r ∧
      DictionaryEntity.from_dict dict r = .ok v0 ∧
      DictionaryProperty.from_yaml_property_list fs (some (.entity v0.toSnap))
        (sibling path "properties-by-entity" (v0.id.pyStr ++ ".yaml")) = .ok props ∧
      v = { v0 with properties := props,
                    properties_by_id := buildTable (fun p => p.id) props } := by
  unfold entityStep at h
  cases ha : erec.asRec with
  | error e => simp [ha] at h
  | ok r =>
    simp only [ha] at h
    cases hfd : DictionaryEntity.from_dict dict r with
    | error e => simp [hfd] at h
    | ok v0 =>
      simp only [hfd] at h
      cases hpl : DictionaryProperty.from_yaml_property_list fs
          (some (.entity v0.toSnap))
          (sibling path "properties-by-entity" (v0.id.pyStr ++ ".yaml")) with
      | error e => simp [hpl] at h
      | ok props =>
        simp only [hpl] at h
        injection h with h
        exact ⟨r, v0, props, rfl, hfd, hpl, h.symm⟩

/-- If the required sibling property file cannot be read, the loop body fails
with the `DictionaryLoadingError` wrapped by `from_yaml_property_list`
(line 352-353), naming the sibling path. -/
theorem entityStep_missing_sibling (fs : FS) (dict : Option DictionaryBase)
    (path : List String) (erec : Val) (r : Rec) (v0 : DictionaryEntity)
    (ha : erec.asRec = .ok r)
    (hfd : DictionaryEntity.from_dict dict r = .ok v0)
    (hsib : fs.read (sibling path "properties-by-entity" (v0.id.pyStr ++ ".yaml"))
      = .error .osError) :
    entityStep fs dict path erec = .error (.loadingError
      ("Error reading property list file: "
        ++ pathStr (sibling path "properties-by-entity" (v0.id.pyStr ++ ".yaml")))) := by
  unfold entityStep
  simp only [ha, hfd]
  unfold DictionaryProperty.from_yaml_property_list
  simp [hsib, catchLow, PyErr.isLow]

/-- C6: each entity returned by the batch entity loader is the parsed base
record with `properties` replaced wholesale by the list loaded from the
sibling file `properties-by-entity/<id>.yaml` (the entity itself as owner)
and the lookup table rebuilt from that list (first conjunct); the sibling
file is required — an unreadable sibling file fails the loop body, and the
whole loader, with the property-list LoadingError naming the sibling path,
never falling back to inline data (second and third conjuncts). -/
theorem c6_entity_sibling_properties :
    (∀ (fs : FS) (dict : Option DictionaryBase) (path : List String)
        (ret : List DictionaryEntity),
      DictionaryEntity.from_yaml_entity_list fs dict path = .ok ret →
      ∀ v ∈ ret, ∃ r v0 props,
        DictionaryEntity.from_dict dict r = .ok v0 ∧
        DictionaryProperty.from_yaml_property_list fs (some (.entity v0.toSnap))
          (sibling path "properties-by-entity" (v0.id.pyStr ++ ".yaml")) = .ok props ∧
        v = { v0 with properties := props,
                      properties_by_id := buildTable (fun p => p.id) props })
    ∧ (∀ (fs : FS) (dict : Option DictionaryBase) (path : List String)
        (erec : Val) (r : Rec) (v0 : DictionaryEntity),
      erec.asRec = .ok r →
      DictionaryEntity.from_dict dict r = .ok v0 →
      fs.read (sibling path "properties-by-entity" (v0.id.pyStr ++ ".yaml"))
        = .error .osError →
      entityStep fs dict path erec = .error (.loadingError
        ("Error reading property list file: "
          ++ pathStr (sibling path "properties-by-entity" (v0.id.pyStr ++ ".yaml")))))
    ∧ (∀ (fs : FS) (dict : Option DictionaryBase) (path : List String)
        (r : Rec) (v0 : DictionaryEntity),
      fs.read path = .ok (.vlist [.vmap r]) →
      DictionaryEntity.from_dict dict r = .ok v0 →
      fs.read (sibling path "properties-by-entity" (v0.id.pyStr ++ ".yaml"))
        = .error .osError →
      DictionaryEntity.from_yaml_entity_list fs dict path = .error (.loadingError
        ("Error reading property list file: "
          ++ pathStr (sibling path "properties-by-entity" (v0.id.pyStr ++ ".yaml"))))) := by
  refine ⟨?_, ?_, ?_⟩
  · intro fs dict path ret hok v hv
    have hin := catchLow_ok _ _ _ hok
    cases hr : fs.read path with
    | error e => simp [hr] at hin
    | ok y =>
      simp only [hr] at hin
      cases hl : y.asList with
      | error e => simp [hl] at hin
      | ok recs =>
        simp only [hl] at hin
        obtain ⟨erec, _, hstep⟩ := entityLoop_mem fs dict path recs ret hin v hv
        obtain ⟨r, v0, props, _, hfd, hpl, hveq⟩ := entityStep_ok fs dict path erec v hstep
        exact ⟨r, v0, props, hfd, hpl, hveq⟩
  · intro fs dict path erec r v0 ha hfd hsib
    exact entityStep_missing_sibling fs dict path erec r v0 ha hfd hsib
  · intro fs dict path r v0 hread hfd hsib
    have hstep := entityStep_missing_sibling fs dict path (.vmap r) r v0 rfl hfd hsib
    unfold DictionaryEntity.from_yaml_entity_list
    have hloop : entityLoop fs dict path [.vmap r] = .error (.loadingError
        ("Error reading property list file: "
          ++ pathStr (sibling path "properties-by-entity" (v0.id.pyStr ++ ".yaml")))) := by
      unfold entityLoop
      simp only [hstep]
    simp [hread, Val.asList, hloop, catchLow, PyErr.isLow]

def entRecC6 : Rec := [("id", .vstr "ok"), ("name", .vstr "E")]

def propRecC6 : Rec :=
  [("id", .vstr "ok.index"), ("name", .vstr "P"), ("type", .vstr "int32")]

/-- A directory with `entities.yaml` and the entity's sibling property file. -/
def fsOkC6 : FS :=
  { read := fun p =>
      if p = ["entities.yaml"] then .ok (.vlist [.vmap entRecC6])
      else if p = ["properties-by-entity", "ok.yaml"] then .ok (.vlist [.vmap propRecC6])
      else .error .osError,
    pathExists := fun _ => false }

/-- The same directory with the sibling property file absent. -/
def fsErrC6 : FS :=
  { read := fun p =>
      if p = ["entities.yaml"] then .ok (.vlist [.vmap entRecC6])
      else .error .osError,
    pathExists := fun _ => false }

/-- The entity as parsed from `entRecC6` alone, before property loading. -/
def entC6pre : DictionaryEntity :=
  { dictionary := none, id := .vstr "ok", name := .vstr "E",
    description := .vnull, properties := [], properties_by_id := [],
    attributes := .vmap [], deprecated := .vbool false }

/-- The property as loaded from the sibling file, owned by the entity. -/
def propC6 : DictionaryProperty :=
  { id := .vstr "ok.index", entity := some (.entity entC6pre.toSnap),
    name := .vstr "P", type_id := .vstr "int32", description := .vnull,
    entity_id := .vnull, attributes := .vmap [], deprecated := .vbool false }

/-- The fully loaded entity: sibling-file properties and rebuilt table. -/
def entC6 : DictionaryEntity :=
  { dictionary := none, id := .vstr "ok", name := .vstr "E",
    description := .vnull, properties := [propC6],
    properties_by_id := [(.vstr "ok.index", propC6)],
    attributes := .vmap [], deprecated := .vbool false }

/-- C6, witnessed: a successful load through the sibling file, and the
required-sibling failure when that file is unreadable. -/
theorem c6_entity_sibling_properties_witness :
    (∃ r v0 props,
      DictionaryEntity.from_dict none r = .ok v0 ∧
      DictionaryProperty.from_yaml_property_list fsOkC6 (some (.entity v0.toSnap))
        (sibling ["entities.yaml"] "properties-by-entity" (v0.id.pyStr ++ ".yaml"))
          = .ok props ∧
      entC6 = { v0 with properties := props,
                        properties_by_id := buildTable (fun p => p.id) props })
    ∧ entityStep fsErrC6 none ["entities.yaml"] (.vmap entRecC6)
        = .error (.loadingError
            ("Error reading property list file: "
              ++ pathStr (sibling ["entities.yaml"] "properties-by-entity"
                  ((Val.vstr "ok").pyStr ++ ".yaml"))))
    ∧ DictionaryEntity.from_yaml_entity_list fsErrC6 none ["entities.yaml"]
        = .error (.loadingError
            ("Error reading property list file: "
              ++ pathStr (sibling ["entities.yaml"] "properties-by-entity"
                  ((Val.vstr "ok").pyStr ++ ".yaml")))) :=
  ⟨c6_entity_sibling_properties.1 fsOkC6 none ["entities.yaml"] [entC6] rfl entC6
    (List.mem_singleton.mpr rfl),
   c6_entity_sibling_properties.2.1 fsErrC6 none ["entities.yaml"]
    (.vmap entRecC6) entRecC6 entC6pre rfl rfl rfl,
   c6_entity_sibling_properties.2.2 fsErrC6 none ["entities.yaml"]
    entRecC6 entC6pre rfl rfl rfl⟩

/-- C7: every batch loader wraps a low-level file-read/parse failure
(`OSError` / `yaml.YAMLError`) into a `DictionaryLoadingError` whose message
carries the file path (wrap conjuncts), while an error raised by the
per-record `from_dict` factory — any non-low error, the Loading/Validation
errors in particular — passes through the loader unchanged (pass-through
conjuncts); both for all five loaders: enumeration list, data-type list,
property list, entity list and root dictionary. -/
theorem c7_error_propagation_policy :
    (∀ (fs : FS) (ent : Option EntitySnap) (path : List String) (e : PyErr),
      fs.read path = .error e → e.isLow = true →
      DictionaryEnumeration.from_yaml_enum_list fs ent path
        = .error (.loadingError ("Error reading enumeration file: " ++ pathStr path))
      ∧ mentions (pathStr path) ("Error reading enumeration file: " ++ pathStr path))
  ∧ (∀ (fs : FS) (ent : Option EntitySnap) (path : List String) (r : Rec) (e : PyErr),
      fs.read path = .ok (.vlist [.vmap r]) →
      DictionaryEnumeration.from_dict ent r = .error e → e.isLow = false →
      DictionaryEnumeration.from_yaml_enum_list fs ent path = .error e)
  ∧ (∀ (fs : FS) (dic : Option DictionaryBase) (path : List String) (e : PyErr),
      fs.read path = .error e → e.isLow = true →
      DictionaryDataType.from_yaml_data_type_list fs dic path
        = .error (.loadingError ("Error reading enumeration file: " ++ pathStr path))
      ∧ mentions (pathStr path) ("Error reading enumeration file: " ++ pathStr path))
  ∧ (∀ (fs : FS) (dic : Option DictionaryBase) (path : List String) (r : Rec) (e : PyErr),
      fs.read path = .ok (.vlist [.vmap r]) →
      DictionaryDataType.from_dict dic r = .error e → e.isLow = false →
      DictionaryDataType.from_yaml_data_type_list fs dic path = .error e)
  ∧ (∀ (fs : FS) (own : Option PropOwner) (path : List String) (e : PyErr),
      fs.read path = .error e → e.isLow = true →
      DictionaryProperty.from_yaml_property_list fs own path
        = .error (.loadingError ("Error reading property list file: " ++ pathStr path))
      ∧ mentions (pathStr path) ("Error reading property list file: " ++ pathStr path))
  ∧ (∀ (fs : FS) (own : Option PropOwner) (path : List String) (r : Rec) (e : PyErr),
      fs.read path = .ok (.vlist [.vmap r]) →
      DictionaryProperty.from_dict own r = .error e → e.isLow = false →
      DictionaryProperty.from_yaml_property_list fs own path = .error e)
  ∧ (∀ (fs : FS) (dic : Option DictionaryBase) (path : List String) (e : PyErr),
      fs.read path = .error e → e.isLow = true →
      DictionaryEntity.from_yaml_entity_list fs dic path
        = .error (.loadingError ("Error reading enumeration file: " ++ pathStr path))
      ∧ mentions (pathStr path) ("Error reading enumeration file: " ++ pathStr path))
  ∧ (∀ (fs : FS) (dic : Option DictionaryBase) (path : List String) (r : Rec) (e : PyErr),
      fs.read path = .ok (.vlist [.vmap r]) →
      DictionaryEntity.from_dict dic r = .error e → e.isLow = false →
      DictionaryEntity.from_yaml_entity_list fs dic path = .error e)
  ∧ (∀ (fs : FS) (path : List String) (e : PyErr),
      fs.read path = .error e → e.isLow = true →
      Dictionary.from_yaml_dictionary fs path
        = .error (.loadingError ("Error reading dictionary file: " ++ pathStr path))
      ∧ mentions (pathStr path) ("Error reading dictionary file: " ++ pathStr path))
  ∧ (∀ (fs : FS) (path : List String) (r : Rec) (e : PyErr),
      fs.read path = .ok (.vmap r) →
      Dictionary.from_dict r = .error e → e.isLow = false →
      Dictionary.from_yaml_dictionary fs path = .error e) := by
  refine ⟨?_, ?_, ?_, ?_, ?_, ?_, ?_, ?_, ?_, ?_⟩
  · intro fs ent path e hread hlow
    refine ⟨?_, mentions_suffix _ _⟩
    simp [DictionaryEnumeration.from_yaml_enum_list, hread, catchLow, hlow]
  · intro fs ent path r e hread hfact hlow
    simp [DictionaryEnumeration.from_yaml_enum_list, hread, Val.asList, parseEnums,
      Val.asRec, hfact, catchLow, hlow]
  · intro fs dic path e hread hlow
    refine ⟨?_, mentions_suffix _ _⟩
    simp [DictionaryDataType.from_yaml_data_type_list, hread, catchLow, hlow]
  · intro fs dic path r e hread hfact hlow
    simp [DictionaryDataType.from_yaml_data_type_list, hread, Val.asList,
      dataTypeLoop, dataTypeStep, Val.asRec, hfact, catchLow, hlow]
  · intro fs own path e hread hlow
    refine ⟨?_, mentions_suffix _ _⟩
    simp [DictionaryProperty.from_yaml_property_list, hread, catchLow, hlow]
  · intro fs own path r e hread hfact hlow
    simp [DictionaryProperty.from_yaml_property_list, hread, Val.asList, parseProps,
      Val.asRec, hfact, catchLow, hlow]
  · intro fs dic path e hread hlow
    refine ⟨?_, mentions_suffix _ _⟩
    simp [DictionaryEntity.from_yaml_entity_list, hread, catchLow, hlow]
  · intro fs dic path r e hread hfact hlow
    simp [DictionaryEntity.from_yaml_entity_list, hread, Val.asList, entityLoop,
      entityStep, Val.asRec, hfact, catchLow, hlow]
  · intro fs path e hread hlow
    refine ⟨?_, mentions_suffix _ _⟩
    simp [Dictionary.from_yaml_dictionary, hread, catchLow, hlow]
  · intro fs path r e hread hfact hlow
    simp [Dictionary.from_yaml_dictionary, hread, Val.asRec, hfact, catchLow, hlow]

/-- A file system on which every read fails. -/
def fsAbsent : FS := { read := fun _ => .error .osError, pathExists := fun _ => false }

/-- A file system whose every file is a one-element list of an empty record. -/
def fsEmptyRec : FS :=
  { read := fun _ => .ok (.vlist [.vmap []]), pathExists := fun _ => false }

/-- A file system whose every file is a single empty record. -/
def fsEmptyDict : FS :=
  { read := fun _ => .ok (.vmap []), pathExists := fun _ => false }

/-- C7, witnessed: for each loader, the wrap of an unreadable file and the
untouched propagation of a factory `LoadingError` (an empty record fails its
id check), at concrete inputs. -/
theorem c7_error_propagation_policy_witness :
    DictionaryEnumeration.from_yaml_enum_list fsAbsent none ["f.yaml"]
      = .error (.loadingError ("Error reading enumeration file: " ++ pathStr ["f.yaml"]))
    ∧ DictionaryEnumeration.from_yaml_enum_list fsEmptyRec none ["f.yaml"]
      = .error (.loadingError "Missing id in enumeration")
    ∧ DictionaryDataType.from_yaml_data_type_list fsAbsent none ["f.yaml"]
      = .error (.loadingError ("Error reading enumeration file: " ++ pathStr ["f.yaml"]))
    ∧ DictionaryDataType.from_yaml_data_type_list fsEmptyRec none ["f.yaml"]
      = .error (.loadingError "Missing id in data type")
    ∧ DictionaryProperty.from_yaml_property_list fsAbsent none ["f.yaml"]
      = .error (.loadingError ("Error reading property list file: " ++ pathStr ["f.yaml"]))
    ∧ DictionaryProperty.from_yaml_property_list fsEmptyRec none ["f.yaml"]
      = .error (.loadingError "Missing id in property")
    ∧ DictionaryEntity.from_yaml_entity_list fsAbsent none ["f.yaml"]
      = .error (.loadingError ("Error reading enumeration file: " ++ pathStr ["f.yaml"]))
    ∧ DictionaryEntity.from_yaml_entity_list fsEmptyRec none ["f.yaml"]
      = .error (.loadingError "Missing id in entity")
    ∧ Dictionary.from_yaml_dictionary fsAbsent ["f.yaml"]
      = .error (.loadingError ("Error reading dictionary file: " ++ pathStr ["f.yaml"]))
    ∧ Dictionary.from_yaml_dictionary fsEmptyDict ["f.yaml"]
      = .error (.loadingError "Missing id in dictionary") :=
  ⟨(c7_error_propagation_policy.1 fsAbsent none ["f.yaml"] .osError rfl rfl).1,
   c7_error_propagation_policy.2.1 fsEmptyRec none ["f.yaml"] [] _ rfl rfl rfl,
   (c7_error_propagation_policy.2.2.1 fsAbsent none ["f.yaml"] .osError rfl rfl).1,
   c7_error_propagation_policy.2.2.2.1 fsEmptyRec none ["f.yaml"] [] _ rfl rfl rfl,
   (c7_error_propagation_policy.2.2.2.2.1 fsAbsent none ["f.yaml"] .osError rfl rfl).1,
   c7_error_propagation_policy.2.2.2.2.2.1 fsEmptyRec none ["f.yaml"] [] _ rfl rfl rfl,
   (c7_error_propagation_policy.2.2.2.2.2.2.1 fsAbsent none ["f.yaml"] .osError rfl rfl).1,
   c7_error_propagation_policy.2.2.2.2.2.2.2.1 fsEmptyRec none ["f.yaml"] [] _ rfl rfl rfl,
   (c7_error_propagation_policy.2.2.2.2.2.2.2.2.1 fsAbsent ["f.yaml"] .osError rfl rfl).1,
   c7_error_propagation_policy.2.2.2.2.2.2.2.2.2 fsEmptyDict ["f.yaml"] [] _ rfl rfl rfl⟩
